import Mathlib

/-!
Verification of the TCO calculation engine of the enterprise wireless
investment decision app (src/app.py).  Money amounts, rates and
multipliers are modelled as exact rationals; the string-keyed multiplier
lookups keep their string keys.  A Python dict lookup that can raise
`KeyError`, and a division that can raise `ZeroDivisionError`, are
modelled as `Option`-valued functions returning `none` in the failing
case.
-/

/-- The scenario parameter set, as resolved from the sidebar inputs of
the app (facility size, horizon, coverage model, growth, latency, SLA
target, and the editable reference pricing). -/
structure Params where
  sqft : ℚ
  years : ℕ
  coverage : String
  growth : ℚ
  latency : ℚ
  sla : String
  wifi_ap_cost : ℚ
  wifi_maint : ℚ
  p5g_cell_cost : ℚ
  p5g_core_cost : ℚ
  p5g_maint : ℚ

/-- `sla_multiplier` (src/app.py lines 75-76): a dict lookup
`{"99.9%":1.0,"99.99%":1.08,"99.999%":1.15}[sla]`; a key outside the
dict raises `KeyError`, modelled as `none`. -/
def sla_multiplier (s : String) : Option ℚ :=
  if s = "99.9%" then some 1.0
  else if s = "99.99%" then some 1.08
  else if s = "99.999%" then some 1.15
  else none

/-- `growth_multiplier` (src/app.py lines 78-79). -/
def growth_multiplier (growth : ℚ) (years : ℕ) : ℚ :=
  (1 + growth / 100) ^ years

/-- `coverage_multiplier` (src/app.py lines 81-87): an if/elif/else
chain; every string other than the first two falls into the `else`
branch and yields `1.15`. -/
def coverage_multiplier (coverage : String) : ℚ :=
  if coverage = "Indoor Only" then 1.0
  else if coverage = "Outdoor Only" then 1.25
  else 1.15

/-- `wifi_ap_count` (src/app.py line 93). -/
def wifi_ap_count (p : Params) : ℤ :=
  ⌈p.sqft / 2500 * coverage_multiplier p.coverage⌉

/-- `wifi_capex` (src/app.py line 94). -/
def wifi_capex (p : Params) : ℚ :=
  (wifi_ap_count p : ℚ) * p.wifi_ap_cost

/-- `wifi_opex` (src/app.py line 95). -/
def wifi_opex (p : Params) : ℚ :=
  wifi_capex p * p.wifi_maint * (p.years : ℚ)

/-- The Wi-Fi risk-adjusted total before the conditional low-latency
penalty (src/app.py line 96, the value of `wifi_total` just before the
`if latency < 10` block). -/
def wifi_total_base (p : Params) : Option ℚ :=
  (sla_multiplier p.sla).map fun m =>
    (wifi_capex p + wifi_opex p) * m * growth_multiplier p.growth p.years

/-- `wifi_total` after the conditional penalty (src/app.py lines 96-98):
multiplied by 1.10 exactly when `latency < 10`. -/
def wifi_total (p : Params) : Option ℚ :=
  (wifi_total_base p).map fun t => if p.latency < 10 then t * 1.10 else t

/-- `p5g_cell_count` (src/app.py line 100). -/
def p5g_cell_count (p : Params) : ℤ :=
  ⌈p.sqft / 10000 * coverage_multiplier p.coverage⌉

/-- `p5g_capex` (src/app.py line 101). -/
def p5g_capex (p : Params) : ℚ :=
  (p5g_cell_count p : ℚ) * p.p5g_cell_cost + p.p5g_core_cost

/-- `p5g_opex` (src/app.py line 102). -/
def p5g_opex (p : Params) : ℚ :=
  p5g_capex p * p.p5g_maint * (p.years : ℚ)

/-- `p5g_total` (src/app.py line 103); no latency penalty. -/
def p5g_total (p : Params) : Option ℚ :=
  (sla_multiplier p.sla).map fun m =>
    (p5g_capex p + p5g_opex p) * m * growth_multiplier p.growth p.years

/-- `hyb_capex` (src/app.py line 105). -/
def hyb_capex (p : Params) : ℚ :=
  wifi_capex p * 0.6 + p5g_capex p * 0.6

/-- `hyb_opex` (src/app.py line 106). -/
def hyb_opex (p : Params) : ℚ :=
  wifi_opex p * 0.6 + p5g_opex p * 0.6

/-- `hyb_total` (src/app.py line 107); no latency penalty. -/
def hyb_total (p : Params) : Option ℚ :=
  (sla_multiplier p.sla).map fun m =>
    (hyb_capex p + hyb_opex p) * m * growth_multiplier p.growth p.years

/-- `percent_change` (src/app.py lines 126-127): a float division that
raises `ZeroDivisionError` when `base == 0`, modelled as `none`. -/
def percent_change (base compare : ℚ) : Option ℚ :=
  if base = 0 then none else some ((compare - base) / base * 100)

/-- `years_list` (src/app.py line 204): `range(1, years+1)`. -/
def years_list (p : Params) : List ℕ :=
  (List.range p.years).map (· + 1)

/-- `wifi_trend` (src/app.py line 206). -/
def wifi_trend (p : Params) : List ℚ :=
  (years_list p).map fun (y : ℕ) => wifi_capex p + wifi_capex p * p.wifi_maint * (y : ℚ)

/-- `p5g_trend` (src/app.py line 207). -/
def p5g_trend (p : Params) : List ℚ :=
  (years_list p).map fun (y : ℕ) => p5g_capex p + p5g_capex p * p.p5g_maint * (y : ℚ)

/-- `hyb_trend` (src/app.py line 208).  Note the source multiplies
`hyb_capex` by `wifi_maint`, the Wi-Fi maintenance rate. -/
def hyb_trend (p : Params) : List ℚ :=
  (years_list p).map fun (y : ℕ) => hyb_capex p + hyb_capex p * p.wifi_maint * (y : ℚ)

/-- The maintenance rate that the Hybrid model itself implies: the
unique `m` with `hyb_opex = hyb_capex * m * years` (when `hyb_capex`
and `years` are nonzero), mirroring how each architecture's opex line
defines its maintenance percent. -/
def hyb_maint (p : Params) : ℚ :=
  hyb_opex p / (hyb_capex p * (p.years : ℚ))

/-- The concrete scenario of claim C1, with the latency requirement
left as a parameter. -/
def paramsC1 (l : ℚ) : Params :=
  { sqft := 500000, years := 5, coverage := "Indoor Only", growth := 0,
    latency := l, sla := "99.9%", wifi_ap_cost := 1200, wifi_maint := 0.18,
    p5g_cell_cost := 5000, p5g_core_cost := 80000, p5g_maint := 0.15 }

/-- C1: for facilitySqft=500000, coverageModel="Indoor Only", years=5,
apUnitCost=1200, maintenancePercent=0.18, slaTarget="99.9%",
growthPercent=0 and latencyMs ≥ 10, the Wi-Fi model computes
apCount=200, capex=240000, opex=216000 and riskAdjustedTotal=456000. -/
theorem claim_C1 (l : ℚ) (hl : 10 ≤ l) :
    wifi_ap_count (paramsC1 l) = 200 ∧
    wifi_capex (paramsC1 l) = 240000 ∧
    wifi_opex (paramsC1 l) = 216000 ∧
    wifi_total (paramsC1 l) = some 456000 := by
  have hcov : coverage_multiplier "Indoor Only" = 1.0 := by
    simp [coverage_multiplier]
  have hcount : wifi_ap_count (paramsC1 l) = 200 := by
    show ⌈(500000 : ℚ) / 2500 * coverage_multiplier "Indoor Only"⌉ = 200
    rw [hcov]
    rw [show (500000 : ℚ) / 2500 * 1.0 = ((200 : ℤ) : ℚ) by norm_num]
    exact Int.ceil_intCast 200
  have hcapex : wifi_capex (paramsC1 l) = 240000 := by
    show (wifi_ap_count (paramsC1 l) : ℚ) * 1200 = 240000
    rw [hcount]; norm_num
  have hopex : wifi_opex (paramsC1 l) = 216000 := by
    show wifi_capex (paramsC1 l) * 0.18 * ((5 : ℕ) : ℚ) = 216000
    rw [hcapex]; norm_num
  have hsla : sla_multiplier "99.9%" = some 1.0 := by
    simp [sla_multiplier]
  have hbase : wifi_total_base (paramsC1 l) = some 456000 := by
    show (sla_multiplier "99.9%").map
        (fun m => (wifi_capex (paramsC1 l) + wifi_opex (paramsC1 l)) * m *
          growth_multiplier 0 5) = some 456000
    rw [hsla]
    simp only [Option.map_some']
    rw [hcapex, hopex]
    norm_num [growth_multiplier]
  refine ⟨hcount, hcapex, hopex, ?_⟩
  show (wifi_total_base (paramsC1 l)).map
      (fun t => if l < 10 then t * 1.10 else t) = some 456000
  rw [hbase]
  simp only [Option.map_some']
  rw [if_neg (not_lt.mpr hl)]

/-- Witness for C1 at latency 10. -/
theorem claim_C1_witness :
    wifi_ap_count (paramsC1 10) = 200 ∧
    wifi_capex (paramsC1 10) = 240000 ∧
    wifi_opex (paramsC1 10) = 216000 ∧
    wifi_total (paramsC1 10) = some 456000 :=
  claim_C1 10 (by norm_num)

/-- Counterexample to C2: `coverage_multiplier` does not fail fast on a
value outside the recognized closed set; for the unrecognized key
"Nationwide" it silently returns the default 1.15 (the Indoor + Outdoor
value) via the `else` branch. -/
theorem claim_C2_counterexample :
    ("Nationwide" ∉ (["Indoor Only", "Outdoor Only", "Indoor + Outdoor"] : List String)) ∧
    coverage_multiplier "Nationwide" = 1.15 := by
  constructor
  · simp
  · simp [coverage_multiplier]

/-- C2 amended: the SLA lookup does fail fast — `sla_multiplier` returns
no value for every key outside its recognized closed set — but
`coverage_multiplier` never fails: every coverage value other than
"Indoor Only" and "Outdoor Only" (recognized or not) silently receives
the default multiplier 1.15. -/
theorem claim_C2_amended :
    (∀ s : String, s ≠ "99.9%" → s ≠ "99.99%" → s ≠ "99.999%" →
      sla_multiplier s = none) ∧
    (∀ c : String, c ≠ "Indoor Only" → c ≠ "Outdoor Only" →
      coverage_multiplier c = 1.15) := by
  constructor
  · intro s h1 h2 h3
    simp [sla_multiplier, h1, h2, h3]
  · intro c h1 h2
    simp [coverage_multiplier, h1, h2]

/-- Witness for the amended C2 at the concrete unrecognized key
"Nationwide". -/
theorem claim_C2_amended_witness :
    sla_multiplier "Nationwide" = none ∧
    coverage_multiplier "Nationwide" = 1.15 :=
  ⟨claim_C2_amended.1 "Nationwide" (by simp) (by simp) (by simp),
   claim_C2_amended.2 "Nationwide" (by simp) (by simp)⟩

/-- The parameter set `p` with its latency requirement replaced by `l`. -/
def setLatency (p : Params) (l : ℚ) : Params :=
  { p with latency := l }

/-- C4: under otherwise identical parameters, the Wi-Fi risk-adjusted
total at latency 9 is exactly 1.10 times the total at latency 10, while
the Private 5G total is identical at both latencies (the ×1.10 penalty
applies to Wi-Fi only, never to 5G). -/
theorem claim_C4 (p : Params) :
    wifi_total (setLatency p 9) =
      (wifi_total (setLatency p 10)).map (fun t => 1.10 * t) ∧
    p5g_total (setLatency p 9) = p5g_total (setLatency p 10) := by
  refine ⟨?_, rfl⟩
  show (wifi_total_base (setLatency p 9)).map
      (fun t => if (9 : ℚ) < 10 then t * 1.10 else t) =
    ((wifi_total_base (setLatency p 10)).map
      (fun t => if (10 : ℚ) < 10 then t * 1.10 else t)).map (fun t => 1.10 * t)
  have hb : wifi_total_base (setLatency p 9) = wifi_total_base (setLatency p 10) := rfl
  rw [hb, Option.map_map]
  cases wifi_total_base (setLatency p 10) with
  | none => rfl
  | some t =>
      simp only [Option.map_some', Function.comp]
      rw [if_pos (by norm_num : (9 : ℚ) < 10), if_neg (by norm_num : ¬ (10 : ℚ) < 10)]
      rw [mul_comm]

/-- C5: for every parameter set, Hybrid capex equals exactly
0.6 * (wifiCapex + p5gCapex) and Hybrid opex equals exactly
0.6 * (wifiOpex + p5gOpex). -/
theorem claim_C5 (p : Params) :
    hyb_capex p = 0.6 * (wifi_capex p + p5g_capex p) ∧
    hyb_opex p = 0.6 * (wifi_opex p + p5g_opex p) := by
  constructor
  · show wifi_capex p * 0.6 + p5g_capex p * 0.6 = 0.6 * (wifi_capex p + p5g_capex p)
    ring
  · show wifi_opex p * 0.6 + p5g_opex p * 0.6 = 0.6 * (wifi_opex p + p5g_opex p)
    ring

/-- Evaluation of the SLA lookup on the C1 scenario. -/
lemma pC1_sla : sla_multiplier (paramsC1 10).sla = some 1.0 := by
  show sla_multiplier "99.9%" = some 1.0
  simp [sla_multiplier]

lemma pC1_wifi_ap_count : wifi_ap_count (paramsC1 10) = 200 := by
  show ⌈(500000 : ℚ) / 2500 * coverage_multiplier "Indoor Only"⌉ = 200
  norm_num [coverage_multiplier]

lemma pC1_wifi_capex : wifi_capex (paramsC1 10) = 240000 := by
  show (wifi_ap_count (paramsC1 10) : ℚ) * 1200 = 240000
  rw [pC1_wifi_ap_count]; norm_num

lemma pC1_wifi_opex : wifi_opex (paramsC1 10) = 216000 := by
  show wifi_capex (paramsC1 10) * 0.18 * ((5 : ℕ) : ℚ) = 216000
  rw [pC1_wifi_capex]; norm_num

lemma pC1_p5g_cell_count : p5g_cell_count (paramsC1 10) = 50 := by
  show ⌈(500000 : ℚ) / 10000 * coverage_multiplier "Indoor Only"⌉ = 50
  norm_num [coverage_multiplier]

lemma pC1_p5g_capex : p5g_capex (paramsC1 10) = 330000 := by
  show (p5g_cell_count (paramsC1 10) : ℚ) * 5000 + 80000 = 330000
  rw [pC1_p5g_cell_count]; norm_num

lemma pC1_p5g_opex : p5g_opex (paramsC1 10) = 247500 := by
  show p5g_capex (paramsC1 10) * 0.15 * ((5 : ℕ) : ℚ) = 247500
  rw [pC1_p5g_capex]; norm_num

lemma pC1_hyb_capex : hyb_capex (paramsC1 10) = 342000 := by
  show wifi_capex (paramsC1 10) * 0.6 + p5g_capex (paramsC1 10) * 0.6 = 342000
  rw [pC1_wifi_capex, pC1_p5g_capex]; norm_num

lemma pC1_hyb_opex : hyb_opex (paramsC1 10) = 278100 := by
  show wifi_opex (paramsC1 10) * 0.6 + p5g_opex (paramsC1 10) * 0.6 = 278100
  rw [pC1_wifi_opex, pC1_p5g_opex]; norm_num

lemma pC1_growth : growth_multiplier (paramsC1 10).growth (paramsC1 10).years = 1 := by
  show growth_multiplier 0 5 = 1
  norm_num [growth_multiplier]

lemma pC1_wifi_total_base : wifi_total_base (paramsC1 10) = some 456000 := by
  unfold wifi_total_base
  rw [pC1_sla]
  simp only [Option.map_some']
  rw [pC1_wifi_capex, pC1_wifi_opex, pC1_growth]
  norm_num

lemma pC1_wifi_total : wifi_total (paramsC1 10) = some 456000 := by
  show (wifi_total_base (paramsC1 10)).map
      (fun t => if (10 : ℚ) < 10 then t * 1.10 else t) = some 456000
  rw [pC1_wifi_total_base]
  simp only [Option.map_some']
  rw [if_neg (by norm_num : ¬ ((10 : ℚ) < 10))]

lemma pC1_p5g_total : p5g_total (paramsC1 10) = some 577500 := by
  unfold p5g_total
  rw [pC1_sla]
  simp only [Option.map_some']
  rw [pC1_p5g_capex, pC1_p5g_opex, pC1_growth]
  norm_num

lemma pC1_hyb_total : hyb_total (paramsC1 10) = some 620100 := by
  unfold hyb_total
  rw [pC1_sla]
  simp only [Option.map_some']
  rw [pC1_hyb_capex, pC1_hyb_opex, pC1_growth]
  norm_num

/-- The trend series are indexed over `years_list`: position `i` holds
year `i + 1`. -/
lemma years_list_get (p : Params) (i : ℕ) (hi : i < p.years) :
    (years_list p)[i]? = some (i + 1) := by
  unfold years_list
  rw [List.getElem?_map, List.getElem?_range hi]
  rfl

lemma wifi_trend_get (p : Params) (i : ℕ) (hi : i < p.years) :
    (wifi_trend p)[i]? =
      some (wifi_capex p + wifi_capex p * p.wifi_maint * ((i + 1 : ℕ) : ℚ)) := by
  unfold wifi_trend
  rw [List.getElem?_map, years_list_get p i hi]
  rfl

lemma p5g_trend_get (p : Params) (i : ℕ) (hi : i < p.years) :
    (p5g_trend p)[i]? =
      some (p5g_capex p + p5g_capex p * p.p5g_maint * ((i + 1 : ℕ) : ℚ)) := by
  unfold p5g_trend
  rw [List.getElem?_map, years_list_get p i hi]
  rfl

lemma hyb_trend_get (p : Params) (i : ℕ) (hi : i < p.years) :
    (hyb_trend p)[i]? =
      some (hyb_capex p + hyb_capex p * p.wifi_maint * ((i + 1 : ℕ) : ℚ)) := by
  unfold hyb_trend
  rw [List.getElem?_map, years_list_get p i hi]
  rfl

/-- Counterexample to C3: in the C1 scenario (Wi-Fi maintenance 0.18,
5G maintenance 0.15), the first-year Hybrid trend value is 403560, but
the Hybrid model's own maintenance rate (the `m` with
`hyb_opex = hyb_capex * m * years`) would give 397620: the Hybrid trend
is not computed with the Hybrid architecture's own maintenance
percent. -/
theorem claim_C3_counterexample :
    (hyb_trend (paramsC1 10))[0]? = some 403560 ∧
    hyb_capex (paramsC1 10) +
      hyb_capex (paramsC1 10) * hyb_maint (paramsC1 10) * ((0 + 1 : ℕ) : ℚ) = 397620 ∧
    (hyb_trend (paramsC1 10))[0]? ≠
      some (hyb_capex (paramsC1 10) +
        hyb_capex (paramsC1 10) * hyb_maint (paramsC1 10) * ((0 + 1 : ℕ) : ℚ)) := by
  have h0 : (0 : ℕ) < (paramsC1 10).years := by decide
  have hwm : (paramsC1 10).wifi_maint = 0.18 := rfl
  have ha : (hyb_trend (paramsC1 10))[0]? = some 403560 := by
    rw [hyb_trend_get (paramsC1 10) 0 h0, pC1_hyb_capex, hwm]
    norm_num
  have hmaint : hyb_maint (paramsC1 10) = 309 / 1900 := by
    unfold hyb_maint
    rw [pC1_hyb_opex, pC1_hyb_capex]
    show (278100 : ℚ) / (342000 * ((5 : ℕ) : ℚ)) = 309 / 1900
    norm_num
  have hb : hyb_capex (paramsC1 10) +
      hyb_capex (paramsC1 10) * hyb_maint (paramsC1 10) * ((0 + 1 : ℕ) : ℚ) = 397620 := by
    rw [pC1_hyb_capex, hmaint]
    norm_num
  refine ⟨ha, hb, ?_⟩
  rw [ha, hb]
  intro hcontra
  exact absurd (Option.some.inj hcontra) (by norm_num)

/-- C3 amended: for every parameter set and every year index
`i < horizonYears`, the Wi-Fi and Private 5G trend values use their own
capex and their own maintenance percent, but the Hybrid trend value is
`hybCapex + hybCapex * wifiMaintenancePercent * year` — it reuses the
Wi-Fi maintenance percent rather than a Hybrid-specific one. -/
theorem claim_C3_amended (p : Params) (i : ℕ) (hi : i < p.years) :
    (wifi_trend p)[i]? =
      some (wifi_capex p + wifi_capex p * p.wifi_maint * ((i + 1 : ℕ) : ℚ)) ∧
    (p5g_trend p)[i]? =
      some (p5g_capex p + p5g_capex p * p.p5g_maint * ((i + 1 : ℕ) : ℚ)) ∧
    (hyb_trend p)[i]? =
      some (hyb_capex p + hyb_capex p * p.wifi_maint * ((i + 1 : ℕ) : ℚ)) :=
  ⟨wifi_trend_get p i hi, p5g_trend_get p i hi, hyb_trend_get p i hi⟩

/-- Witness for the amended C3 at the C1 scenario, first year. -/
theorem claim_C3_amended_witness :
    (wifi_trend (paramsC1 10))[0]? =
      some (wifi_capex (paramsC1 10) +
        wifi_capex (paramsC1 10) * (paramsC1 10).wifi_maint * ((0 + 1 : ℕ) : ℚ)) ∧
    (p5g_trend (paramsC1 10))[0]? =
      some (p5g_capex (paramsC1 10) +
        p5g_capex (paramsC1 10) * (paramsC1 10).p5g_maint * ((0 + 1 : ℕ) : ℚ)) ∧
    (hyb_trend (paramsC1 10))[0]? =
      some (hyb_capex (paramsC1 10) +
        hyb_capex (paramsC1 10) * (paramsC1 10).wifi_maint * ((0 + 1 : ℕ) : ℚ)) :=
  claim_C3_amended (paramsC1 10) 0 (by decide)

/-- Every multiplier the SLA lookup can return is at least 1. -/
lemma one_le_sla {s : String} {m : ℚ} (h : sla_multiplier s = some m) : 1 ≤ m := by
  unfold sla_multiplier at h
  split_ifs at h
  · rw [← Option.some.inj h]; norm_num
  · rw [← Option.some.inj h]; norm_num
  · rw [← Option.some.inj h]; norm_num

/-- Every coverage multiplier, recognized or defaulted, is nonnegative. -/
lemma coverage_nonneg (c : String) : 0 ≤ coverage_multiplier c := by
  unfold coverage_multiplier
  split_ifs <;> norm_num

/-- The compound growth multiplier is at least 1 for nonnegative growth. -/
lemma one_le_growth (g : ℚ) (y : ℕ) (hg : 0 ≤ g) : 1 ≤ growth_multiplier g y := by
  unfold growth_multiplier
  have h100 : (0 : ℚ) ≤ g / 100 := by positivity
  calc (1 : ℚ) = 1 ^ y := (one_pow y).symm
    _ ≤ (1 + g / 100) ^ y := pow_le_pow_left₀ (by norm_num) (by linarith) y

lemma wifi_capex_nonneg (p : Params) (hs : 0 ≤ p.sqft) (hc : 0 ≤ p.wifi_ap_cost) :
    0 ≤ wifi_capex p := by
  unfold wifi_capex
  have h1 : (0 : ℤ) ≤ wifi_ap_count p :=
    Int.ceil_nonneg (mul_nonneg (div_nonneg hs (by norm_num)) (coverage_nonneg _))
  exact mul_nonneg (by exact_mod_cast h1) hc

lemma wifi_opex_nonneg (p : Params) (hcap : 0 ≤ wifi_capex p) (hm : 0 ≤ p.wifi_maint) :
    0 ≤ wifi_opex p :=
  mul_nonneg (mul_nonneg hcap hm) (Nat.cast_nonneg _)

lemma p5g_capex_nonneg (p : Params) (hs : 0 ≤ p.sqft) (hc : 0 ≤ p.p5g_cell_cost)
    (hcore : 0 ≤ p.p5g_core_cost) : 0 ≤ p5g_capex p := by
  unfold p5g_capex
  have h1 : (0 : ℤ) ≤ p5g_cell_count p :=
    Int.ceil_nonneg (mul_nonneg (div_nonneg hs (by norm_num)) (coverage_nonneg _))
  exact add_nonneg (mul_nonneg (by exact_mod_cast h1) hc) hcore

lemma p5g_opex_nonneg (p : Params) (hcap : 0 ≤ p5g_capex p) (hm : 0 ≤ p.p5g_maint) :
    0 ≤ p5g_opex p :=
  mul_nonneg (mul_nonneg hcap hm) (Nat.cast_nonneg _)

/-- Scaling a nonnegative cost by two multipliers that are each at least
1 can only increase it. -/
lemma le_mul_multipliers {x m g : ℚ} (hx : 0 ≤ x) (hm : 1 ≤ m) (hg : 1 ≤ g) :
    x ≤ x * m * g := by
  have h1 : (1 : ℚ) * 1 ≤ m * g :=
    mul_le_mul hm hg (by norm_num) (by linarith)
  calc x = x * 1 := (mul_one x).symm
    _ ≤ x * (m * g) := mul_le_mul_of_nonneg_left (by linarith) hx
    _ = x * m * g := (mul_assoc x m g).symm

/-- C6: for every architecture and every parameter set with a valid SLA
target, nonnegative growth, and nonnegative facility size and unit
costs (so every multiplier is ≥ 1), the risk-adjusted total is at least
capex + opex. -/
theorem claim_C6 (p : Params) (m : ℚ)
    (hm : sla_multiplier p.sla = some m)
    (hg : 0 ≤ p.growth) (hs : 0 ≤ p.sqft)
    (hw1 : 0 ≤ p.wifi_ap_cost) (hw2 : 0 ≤ p.wifi_maint)
    (hp1 : 0 ≤ p.p5g_cell_cost) (hp2 : 0 ≤ p.p5g_core_cost) (hp3 : 0 ≤ p.p5g_maint) :
    (∀ t, wifi_total p = some t → wifi_capex p + wifi_opex p ≤ t) ∧
    (∀ t, p5g_total p = some t → p5g_capex p + p5g_opex p ≤ t) ∧
    (∀ t, hyb_total p = some t → hyb_capex p + hyb_opex p ≤ t) := by
  have h1m := one_le_sla hm
  have hgm := one_le_growth p.growth p.years hg
  have hwc := wifi_capex_nonneg p hs hw1
  have hwo := wifi_opex_nonneg p hwc hw2
  have hpc := p5g_capex_nonneg p hs hp1 hp2
  have hpo := p5g_opex_nonneg p hpc hp3
  have hhc : 0 ≤ hyb_capex p := by
    unfold hyb_capex
    have := mul_nonneg hwc (by norm_num : (0 : ℚ) ≤ 0.6)
    have := mul_nonneg hpc (by norm_num : (0 : ℚ) ≤ 0.6)
    linarith
  have hho : 0 ≤ hyb_opex p := by
    unfold hyb_opex
    have := mul_nonneg hwo (by norm_num : (0 : ℚ) ≤ 0.6)
    have := mul_nonneg hpo (by norm_num : (0 : ℚ) ≤ 0.6)
    linarith
  refine ⟨?_, ?_, ?_⟩
  · intro t ht
    unfold wifi_total wifi_total_base at ht
    rw [hm] at ht
    simp only [Option.map_some', Option.some.injEq] at ht
    rw [← ht]
    have hbase := le_mul_multipliers (add_nonneg hwc hwo) h1m hgm
    by_cases hlat : p.latency < 10
    · rw [if_pos hlat]
      nlinarith [add_nonneg hwc hwo]
    · rw [if_neg hlat]
      exact hbase
  · intro t ht
    unfold p5g_total at ht
    rw [hm] at ht
    simp only [Option.map_some', Option.some.injEq] at ht
    rw [← ht]
    exact le_mul_multipliers (add_nonneg hpc hpo) h1m hgm
  · intro t ht
    unfold hyb_total at ht
    rw [hm] at ht
    simp only [Option.map_some', Option.some.injEq] at ht
    rw [← ht]
    exact le_mul_multipliers (add_nonneg hhc hho) h1m hgm

/-- Witness for C6 at the C1 scenario: each architecture's computed
total dominates its capex + opex. -/
theorem claim_C6_witness :
    wifi_capex (paramsC1 10) + wifi_opex (paramsC1 10) ≤ 456000 ∧
    p5g_capex (paramsC1 10) + p5g_opex (paramsC1 10) ≤ 577500 ∧
    hyb_capex (paramsC1 10) + hyb_opex (paramsC1 10) ≤ 620100 := by
  have h := claim_C6 (paramsC1 10) 1.0 pC1_sla
    (by norm_num [paramsC1]) (by norm_num [paramsC1]) (by norm_num [paramsC1])
    (by norm_num [paramsC1]) (by norm_num [paramsC1]) (by norm_num [paramsC1])
    (by norm_num [paramsC1])
  exact ⟨h.1 456000 pC1_wifi_total, h.2.1 577500 pC1_p5g_total,
    h.2.2 620100 pC1_hyb_total⟩

/-- C7: `percent_change` returns `(compare - base) / base * 100`
whenever `base ≠ 0`, and fails (returns no value) precisely when
`base = 0`. -/
theorem claim_C7 :
    (∀ base compare : ℚ, base ≠ 0 →
      percent_change base compare = some ((compare - base) / base * 100)) ∧
    (∀ compare : ℚ, percent_change 0 compare = none) := by
  constructor
  · intro b c hb
    unfold percent_change
    rw [if_neg hb]
  · intro c
    unfold percent_change
    rw [if_pos rfl]

/-- Witness for C7 at base 2, compare 3 (and the failing base 0). -/
theorem claim_C7_witness :
    percent_change 2 3 = some ((3 - 2) / 2 * 100) ∧ percent_change 0 3 = none :=
  ⟨claim_C7.1 2 3 (by norm_num), claim_C7.2 3⟩

/-- C8: the growth multiplier equals `(1 + growthPercent/100)^years`;
it equals 1 whenever growth is 0 (any horizon) and whenever the horizon
is 0 (any growth), and it is monotonically non-decreasing in each input
with the other held fixed, for nonnegative growth. -/
theorem claim_C8 :
    (∀ (g : ℚ) (y : ℕ), growth_multiplier g y = (1 + g / 100) ^ y) ∧
    (∀ y : ℕ, growth_multiplier 0 y = 1) ∧
    (∀ g : ℚ, growth_multiplier g 0 = 1) ∧
    (∀ (g h : ℚ) (y : ℕ), 0 ≤ g → g ≤ h →
      growth_multiplier g y ≤ growth_multiplier h y) ∧
    (∀ (g : ℚ) (y z : ℕ), 0 ≤ g → y ≤ z →
      growth_multiplier g y ≤ growth_multiplier g z) := by
  refine ⟨fun g y => rfl, ?_, ?_, ?_, ?_⟩
  · intro y
    unfold growth_multiplier
    norm_num
  · intro g
    unfold growth_multiplier
    norm_num
  · intro g h y hg hgh
    unfold growth_multiplier
    have h0 : (0 : ℚ) ≤ g / 100 := by positivity
    have h1 : g / 100 ≤ h / 100 := by linarith
    exact pow_le_pow_left₀ (by linarith) (by linarith) y
  · intro g y z hg hyz
    unfold growth_multiplier
    have h0 : (0 : ℚ) ≤ g / 100 := by positivity
    exact pow_le_pow_right₀ (by linarith) hyz

/-- Witness for C8's monotonicity parts at concrete inputs. -/
theorem claim_C8_witness :
    growth_multiplier 1 2 ≤ growth_multiplier 2 2 ∧
    growth_multiplier 1 2 ≤ growth_multiplier 1 3 :=
  ⟨claim_C8.2.2.2.1 1 2 2 (by norm_num) (by norm_num),
   claim_C8.2.2.2.2 1 2 3 (by norm_num) (by norm_num)⟩

/-- C9: for every facility size and every recognized coverage model,
the Wi-Fi access-point count is `ceil(sqft / 2500 * coverageMultiplier)`
and the 5G cell count is `ceil(sqft / 10000 * coverageMultiplier)`. -/
theorem claim_C9 (p : Params)
    (h : p.coverage = "Indoor Only" ∨ p.coverage = "Outdoor Only" ∨
      p.coverage = "Indoor + Outdoor") :
    wifi_ap_count p = ⌈p.sqft / 2500 * coverage_multiplier p.coverage⌉ ∧
    p5g_cell_count p = ⌈p.sqft / 10000 * coverage_multiplier p.coverage⌉ :=
  ⟨rfl, rfl⟩

/-- Witness for C9 at the C1 scenario (coverage "Indoor Only"). -/
theorem claim_C9_witness :
    wifi_ap_count (paramsC1 10) =
      ⌈(paramsC1 10).sqft / 2500 * coverage_multiplier (paramsC1 10).coverage⌉ ∧
    p5g_cell_count (paramsC1 10) =
      ⌈(paramsC1 10).sqft / 10000 * coverage_multiplier (paramsC1 10).coverage⌉ :=
  claim_C9 (paramsC1 10) (Or.inl rfl)

/-- C10: the Hybrid risk-adjusted total equals 0.6 times the sum of the
Wi-Fi risk-adjusted total before the low-latency penalty and the
Private 5G risk-adjusted total; and when `latencyMs ≥ 10` the Wi-Fi
total coincides with its pre-penalty value, so the identity holds for
the final totals as well. -/
theorem claim_C10 (p : Params) :
    hyb_total p =
      Option.map₂ (fun tw tp => 0.6 * (tw + tp))
        (wifi_total_base p) (p5g_total p) ∧
    (10 ≤ p.latency → wifi_total p = wifi_total_base p) := by
  constructor
  · unfold hyb_total wifi_total_base p5g_total
    cases hm : sla_multiplier p.sla with
    | none => rfl
    | some m =>
      simp only [Option.map_some']
      show some ((hyb_capex p + hyb_opex p) * m * growth_multiplier p.growth p.years) =
        some (0.6 * ((wifi_capex p + wifi_opex p) * m * growth_multiplier p.growth p.years +
          (p5g_capex p + p5g_opex p) * m * growth_multiplier p.growth p.years))
      congr 1
      unfold hyb_capex hyb_opex
      ring
  · intro hl
    unfold wifi_total
    cases hb : wifi_total_base p with
    | none => rfl
    | some t =>
      simp only [Option.map_some']
      rw [if_neg (not_lt.mpr hl)]

/-- Witness for C10 at the C1 scenario (latency 10). -/
theorem claim_C10_witness :
    hyb_total (paramsC1 10) =
      Option.map₂ (fun tw tp => 0.6 * (tw + tp))
        (wifi_total_base (paramsC1 10)) (p5g_total (paramsC1 10)) ∧
    wifi_total (paramsC1 10) = wifi_total_base (paramsC1 10) :=
  ⟨(claim_C10 (paramsC1 10)).1,
   (claim_C10 (paramsC1 10)).2 (by norm_num [paramsC1])⟩
